import Mathlib

/-!
Verification of the flurry event-sourcing framework's specification against
its Python source.  The sections below give a shallow embedding of:

* the predicate algebra (`src/money/framework/predicate.py`),
* the SQL predicate simplifiers (`src/flurry.core/flurry/core/utils.py`,
  `src/flurry.postgres/flurry/postgres/postgres.py`,
  `src/money/framework/storage.py`),
* the asynchronous reader-writer lock (`src/flurry.util/flurry/util/rwlock.py`),
* aggregate reconstruction (`src/flurry.core/flurry/core/aggregate.py`),
* the in-memory storage backend (`src/money/framework/storage/memory.py`).

Python dynamic values are modelled by the inductive `PyVal`; `datetime`
values are modelled abstractly by an integer key (their formatting is
modelled by an injective placeholder, since no claim inspects the text of a
formatted timestamp).  Python exceptions are modelled with `Except PyErr`.
-/

namespace Flurry

/-- The dynamic values a predicate can store or compare: Python `None`,
`bool`, `int`, `str` and `datetime` (modelled by an integer key).  `float`
is omitted: for the operations embedded here it behaves like `int`. -/
inductive PyVal where
  | vnone
  | vbool (b : Bool)
  | vint (n : Int)
  | vstr (s : String)
  | vtime (t : Int)
deriving DecidableEq, Repr

/-- Python's numeric view: `bool` is an `int` subtype (`True == 1`). -/
def PyVal.asNum : PyVal → Option Int
  | .vbool b => some (if b then 1 else 0)
  | .vint n => some n
  | _ => Option.none

/-- Python `==` on the modelled value domain: numbers (`bool`/`int`)
compare numerically across kinds, `None`, strings and datetimes compare
within their own kind, everything else is unequal. -/
def pyEq (a b : PyVal) : Bool :=
  match a.asNum, b.asNum with
  | some x, some y => x == y
  | _, _ =>
    match a, b with
    | .vnone, .vnone => true
    | .vstr s, .vstr t => s == t
    | .vtime s, .vtime t => s == t
    | _, _ => false

/-- Python ordering comparison (`<`, `<=`, …): defined between numbers,
between strings and between datetimes; any other combination raises
`TypeError`, modelled by `Option.none`. -/
def pyCompare (a b : PyVal) : Option Ordering :=
  match a.asNum, b.asNum with
  | some x, some y => some (compare x y)
  | _, _ =>
    match a, b with
    | .vstr s, .vstr t => some (compare s t)
    | .vtime s, .vtime t => some (compare s t)
    | _, _ => Option.none

/-- Python exceptions raised by the embedded code. -/
inductive PyErr where
  | typeError
  | valueError (msg : String)
  | runtimeError (msg : String)
deriving DecidableEq, Repr

def liftCmp (o : Option Bool) : Except PyErr Bool :=
  match o with
  | some b => .ok b
  | Option.none => .error .typeError

def pyLt (a b : PyVal) : Except PyErr Bool :=
  liftCmp ((pyCompare a b).map (fun o => o == Ordering.lt))

def pyLe (a b : PyVal) : Except PyErr Bool :=
  liftCmp ((pyCompare a b).map (fun o => o != Ordering.gt))

def pyGt (a b : PyVal) : Except PyErr Bool :=
  liftCmp ((pyCompare a b).map (fun o => o == Ordering.gt))

def pyGe (a b : PyVal) : Except PyErr Bool :=
  liftCmp ((pyCompare a b).map (fun o => o != Ordering.lt))

/-- `FieldPredicate` and its concrete kinds
(`src/money/framework/predicate.py`, classes `Eq`, `NotEq`, `OneOf`,
`Less`, `More`, `LessEq`, `MoreEq`, `Between`). -/
inductive FieldPredicate where
  | eq (expect : PyVal)
  | notEq (expect : PyVal)
  | oneOf (options : List PyVal)
  | less (limit : PyVal)
  | more (limit : PyVal)
  | lessEq (limit : PyVal)
  | moreEq (limit : PyVal)
  | between (lower upper : PyVal)
deriving DecidableEq, Repr

/-- `FieldPredicate.__call__` for each kind.  `Between` embeds the chained
Python comparison `lower <= value <= upper`, which short-circuits on the
first comparison. -/
def FieldPredicate.call : FieldPredicate → PyVal → Except PyErr Bool
  | .eq e, v => .ok (pyEq v e)
  | .notEq e, v => .ok (!pyEq v e)
  | .oneOf opts, v => .ok (opts.any (fun o => pyEq v o))
  | .less l, v => pyLt v l
  | .more l, v => pyGt v l
  | .lessEq l, v => pyLe v l
  | .moreEq l, v => pyGe v l
  | .between lo hi, v => do
      let b ← pyLe lo v
      if b then pyLe v hi else .ok false

/-- `Predicate` and its concrete kinds (`And`, `Or`, `Is`, `Where`).
`Is` stores the type objects by their discriminator names; `Where` stores
the field map in insertion order, as a Python dict does. -/
inductive Predicate where
  | and (preds : List Predicate)
  | or (alts : List Predicate)
  | is (types : List String)
  | whereP (fields : List (String × FieldPredicate))
deriving Repr

/-- A record a predicate is evaluated against: its class and ancestor
discriminator names (for `isinstance`), the schema's field-name to
attribute-name map (`Field.attr_name`), and its attributes. -/
structure Record where
  classes : List String
  schemaAttr : List (String × String)
  attrs : List (String × PyVal)
deriving DecidableEq, Repr

/-- `Where.__get_field`: resolve the queried name through the record's
schema when it declares the field, then `getattr(item, attr_name, None)` —
an absent attribute is read as `None`. -/
def Record.getField (r : Record) (name : String) : PyVal :=
  let attr := (r.schemaAttr.lookup name).getD name
  (r.attrs.lookup attr).getD .vnone

mutual

/-- `Predicate.__call__` for each kind.  `Is` embeds
`isinstance(item, self.types)`: true iff some member of the type tuple is
among the record's classes (false for the empty tuple).  `And`/`Or` embed
`all`/`any` over a generator, which short-circuits, so an exception from a
later sub-predicate is not raised once the result is decided. -/
def Predicate.call : Predicate → Record → Except PyErr Bool
  | .and ps, r => Predicate.callAll ps r
  | .or ps, r => Predicate.callAny ps r
  | .is types, r => .ok (types.any (fun t => r.classes.contains t))
  | .whereP fields, r => Predicate.callFields fields r

def Predicate.callAll : List Predicate → Record → Except PyErr Bool
  | [], _ => .ok true
  | p :: ps, r => do
      let b ← Predicate.call p r
      if b then Predicate.callAll ps r else .ok false

def Predicate.callAny : List Predicate → Record → Except PyErr Bool
  | [], _ => .ok false
  | p :: ps, r => do
      let b ← Predicate.call p r
      if b then .ok true else Predicate.callAny ps r

def Predicate.callFields : List (String × FieldPredicate) → Record → Except PyErr Bool
  | [], _ => .ok true
  | (name, fp) :: fs, r => do
      let b ← fp.call (r.getField name)
      if b then Predicate.callFields fs r else .ok false

end

/-- The canonical map (wire) form of predicates: scalar values, Python
type objects (`Is` serializes its types themselves), lists, and dicts. -/
inductive DictVal where
  | val (v : PyVal)
  | typeRef (name : String)
  | list (xs : List DictVal)
  | dict (entries : List (String × DictVal))
deriving Repr

/-- `FieldPredicate.to_dict` for each kind. -/
def FieldPredicate.to_dict : FieldPredicate → DictVal
  | .eq e => .dict [("eq", .val e)]
  | .notEq e => .dict [("not_eq", .val e)]
  | .oneOf opts => .dict [("one_of", .list (opts.map .val))]
  | .less l => .dict [("less", .val l)]
  | .more l => .dict [("more", .val l)]
  | .lessEq l => .dict [("less_eq", .val l)]
  | .moreEq l => .dict [("more_eq", .val l)]
  | .between lo hi => .dict [("between", .list [.val lo, .val hi])]

mutual

/-- `Predicate.to_dict` for each kind. -/
def Predicate.to_dict : Predicate → DictVal
  | .and ps => .dict [("and", .list (Predicate.to_dict_list ps))]
  | .or ps => .dict [("or", .list (Predicate.to_dict_list ps))]
  | .is types => .dict [("is", .list (types.map .typeRef))]
  | .whereP fields => .dict [("where", .dict (Predicate.to_dict_fields fields))]

def Predicate.to_dict_list : List Predicate → List DictVal
  | [] => []
  | p :: ps => Predicate.to_dict p :: Predicate.to_dict_list ps

def Predicate.to_dict_fields : List (String × FieldPredicate) → List (String × DictVal)
  | [] => []
  | (n, fp) :: fs => (n, fp.to_dict) :: Predicate.to_dict_fields fs

end

/-- `FieldPredicate.__decode_value`: accepts `None`, `str`, `int`,
`float`, `bool` and `datetime` scalars; anything else raises
`ValueError`. -/
def decode_value : DictVal → Except PyErr PyVal
  | .val v => .ok v
  | _ => .error (.valueError "not a valid field predicate value")

/-- `FieldPredicate.from_dict`.  NOTE: the `"not_eq"` branch of the source
(`predicate.py` line 182) returns `Eq(...)`, not `NotEq(...)`; this is
embedded faithfully. -/
def FieldPredicate.from_dict : DictVal → Except PyErr FieldPredicate
  | .dict [(name, val)] =>
      if name == "eq" then do pure (.eq (← decode_value val))
      else if name == "not_eq" then do pure (.eq (← decode_value val))
      else if name == "less" then do pure (.less (← decode_value val))
      else if name == "more" then do pure (.more (← decode_value val))
      else if name == "less_eq" then do pure (.lessEq (← decode_value val))
      else if name == "more_eq" then do pure (.moreEq (← decode_value val))
      else if name == "between" then
        match val with
        | .list [a, b] => do pure (.between (← decode_value a) (← decode_value b))
        | _ => .error (.valueError "not a valid field predicate")
      else if name == "one_of" then
        match val with
        | .list xs => do pure (.oneOf (← xs.mapM decode_value))
        | _ => .error (.valueError "not a valid field predicate")
      else .error (.valueError "not a valid field predicate")
  | _ => .error (.valueError "not a valid field predicate")

def DictVal.isTypeRef : DictVal → Bool
  | .typeRef _ => true
  | _ => false

def DictVal.typeRefName : DictVal → String
  | .typeRef n => n
  | _ => ""

mutual

/-- `Predicate.from_dict`: a one-entry dict dispatched on its key;
anything else raises `ValueError`. -/
def Predicate.from_dict : DictVal → Except PyErr Predicate
  | .dict [(name, val)] =>
      if name == "and" then
        match val with
        | .list xs => do pure (.and (← Predicate.from_dict_list xs))
        | _ => .error (.valueError "not a valid predicate")
      else if name == "or" then
        match val with
        | .list xs => do pure (.or (← Predicate.from_dict_list xs))
        | _ => .error (.valueError "not a valid predicate")
      else if name == "is" then
        match val with
        | .list xs =>
            if xs.all DictVal.isTypeRef then .ok (.is (xs.map DictVal.typeRefName))
            else .error (.valueError "not a valid predicate")
        | _ => .error (.valueError "not a valid predicate")
      else if name == "where" then
        match val with
        | .dict entries => do pure (.whereP (← Predicate.from_dict_fields entries))
        | _ => .error (.valueError "not a valid predicate")
      else .error (.valueError "not a valid predicate")
  | _ => .error (.valueError "not a valid predicate")

def Predicate.from_dict_list : List DictVal → Except PyErr (List Predicate)
  | [] => .ok []
  | x :: xs => do pure ((← Predicate.from_dict x) :: (← Predicate.from_dict_list xs))

def Predicate.from_dict_fields :
    List (String × DictVal) → Except PyErr (List (String × FieldPredicate))
  | [] => .ok []
  | (n, v) :: es => do
      pure ((n, ← FieldPredicate.from_dict v) :: (← Predicate.from_dict_fields es))

end

/-- `FieldPredicate.__eq__`: same class, and each slot value compares
equal under Python `==`. -/
def FieldPredicate.pyEqFP : FieldPredicate → FieldPredicate → Bool
  | .eq a, .eq b => pyEq a b
  | .notEq a, .notEq b => pyEq a b
  | .oneOf xs, .oneOf ys =>
      xs.length == ys.length && (List.zip xs ys).all (fun p => pyEq p.1 p.2)
  | .less a, .less b => pyEq a b
  | .more a, .more b => pyEq a b
  | .lessEq a, .lessEq b => pyEq a b
  | .moreEq a, .moreEq b => pyEq a b
  | .between lo hi, .between lo2 hi2 => pyEq hi hi2 && pyEq lo lo2
  | _, _ => false

mutual

/-- `Predicate.__eq__`: same class, slots compared with Python `==`
(tuples elementwise, the `Where` field dict without regard to order). -/
def Predicate.pyEqPred : Predicate → Predicate → Bool
  | .and ps, .and qs => Predicate.pyEqList ps qs
  | .or ps, .or qs => Predicate.pyEqList ps qs
  | .is ts, .is us => ts == us
  | .whereP fs, .whereP gs =>
      fs.length == gs.length && Predicate.pyEqFieldsIn fs gs
  | _, _ => false

def Predicate.pyEqList : List Predicate → List Predicate → Bool
  | [], [] => true
  | p :: ps, q :: qs => Predicate.pyEqPred p q && Predicate.pyEqList ps qs
  | _, _ => false

def Predicate.pyEqFieldsIn :
    List (String × FieldPredicate) → List (String × FieldPredicate) → Bool
  | [], _ => true
  | (n, fp) :: fs, gs =>
      (match gs.lookup n with
       | some gp => FieldPredicate.pyEqFP fp gp
       | Option.none => false)
      && Predicate.pyEqFieldsIn fs gs

end

/-! ## SQL predicate simplifiers

`SimplifiedPredicate` is the triple `(residual, clause, params)`.  SQL
clauses are strings with `%s` / `?` placeholders; parameters are passed
positionally as strings (`Is` passes type names, field comparisons pass
the field key and the JSON- or ISO-encoded literal). -/

/-- `flurry.util.JSON.dumps` restricted to the scalar values
`_smart_query` feeds it (string-escaping inside JSON strings is not
modelled; no claim exercises it). -/
def JSONdumps : PyVal → String
  | .vnone => "null"
  | .vbool b => if b then "true" else "false"
  | .vint n => toString n
  | .vstr s => "\"" ++ s ++ "\""
  | .vtime t => "\"" ++ toString t ++ "\""

/-- `datetime.isoformat()`, modelled injectively on the abstract datetime
key (no claim inspects the formatted text). -/
def isoformat (t : Int) : String := "datetime(" ++ toString t ++ ")"

def lbrace : Char := Char.ofNat 123

def rbrace : Char := Char.ofNat 125

def pyFormat1Aux (arg : String) : List Char → List Char
  | [] => []
  | c :: rest =>
      if c = lbrace then
        match rest with
        | d :: rest2 =>
            if d = rbrace then arg.data ++ rest2
            else c :: pyFormat1Aux arg rest
        | [] => [c]
      else c :: pyFormat1Aux arg rest

/-- Python's `str.format` with a single positional `{}` placeholder, as
used on the timestamp-conversion patterns (each has exactly one
placeholder; `format` substitutes the argument there). -/
def pyFormat1 (pattern arg : String) : String :=
  String.mk (pyFormat1Aux arg pattern.data)

/-- The default conversion pattern substituted by
`_PostgreSQLSimplifier.__init__` when `timestamp_convert` is `None`
(`postgres.py` lines 30-34). -/
def default_timestamp_convert : String :=
  "to_timestamp(\x7b\x7d, \x27YYYY-MM-DD\"T\"HH24:MI:SSTZH:TZM\x27)"

/-- `_PostgreSQLSimplifier` instance state. -/
structure PgSimplifier where
  type_field : String
  data_field : String
  timestamp_convert : String
deriving DecidableEq, Repr

/-- `_PostgreSQLSimplifier.__init__`: a missing conversion function is
replaced by the built-in `to_timestamp` pattern. -/
def mkPgSimplifier (type_field data_field : String)
    (timestamp_convert : Option String) : PgSimplifier :=
  { type_field, data_field,
    timestamp_convert := timestamp_convert.getD default_timestamp_convert }

/-- `_PostgreSQLSimplifier._smart_query`: build the clause and parameters
for one comparison `data->field <oper> literal`.  Negated operators get
the `coalesce(..., true)` form; non-negated ones require the key to be
present; a value that is neither a JSON scalar nor a datetime raises
`RuntimeError`. -/
def smartQuery (s : PgSimplifier) (field oper : String) (val : PyVal) :
    Except PyErr (String × List String) :=
  let is_negation := oper == "<>" || oper == "!="
  match val with
  | .vbool _ | .vint _ | .vstr _ =>
      if is_negation then
        .ok ("coalesce(" ++ s.data_field ++ "->%s " ++ oper ++ " %s::jsonb, true)",
             [field, JSONdumps val])
      else
        .ok ("(" ++ s.data_field ++ " ? %s AND " ++ s.data_field ++ "->%s " ++ oper
               ++ " %s::jsonb)",
             [field, field, JSONdumps val])
  | .vtime t =>
      let field_as_timestamp_tz := pyFormat1 s.timestamp_convert (s.data_field ++ "->>%s")
      if is_negation then
        .ok ("coalesce(" ++ field_as_timestamp_tz ++ " " ++ oper ++ " %s::timestamp, true)",
             [field, isoformat t])
      else
        .ok ("(" ++ s.data_field ++ " ? %s AND " ++ field_as_timestamp_tz ++ " " ++ oper
               ++ " %s::timestamp)",
             [field, field, isoformat t])
  | .vnone => .error (.runtimeError "unsupported value type NoneType")

/-- One visit helper for `on_one_of`: clause and parameters per option. -/
def pgOneOfFold (s : PgSimplifier) (field : String) :
    List PyVal → Except PyErr (List String × List String)
  | [] => .ok ([], [])
  | opt :: opts => do
      let (oquery, oparams) ← smartQuery s field "=" opt
      let (es, ps) ← pgOneOfFold s field opts
      .ok (oquery :: es, oparams ++ ps)

/-- `visit_field_predicate` dispatch combined with the
`_PostgreSQLSimplifier.on_eq` … `on_one_of` methods.  Every comparison
kind compiles (residual `none`) except the degenerate empty `OneOf`,
which is returned as residual by the inherited base method. -/
def pgVisitField (s : PgSimplifier) (field : String) :
    FieldPredicate → Except PyErr (Option FieldPredicate × Option String × Option (List String))
  | .eq e => do
      let (q, pa) ← smartQuery s field "=" e
      .ok (Option.none, some q, some pa)
  | .notEq e => do
      let (q, pa) ← smartQuery s field "<>" e
      .ok (Option.none, some q, some pa)
  | .less l => do
      let (q, pa) ← smartQuery s field "<" l
      .ok (Option.none, some q, some pa)
  | .more l => do
      let (q, pa) ← smartQuery s field ">" l
      .ok (Option.none, some q, some pa)
  | .lessEq l => do
      let (q, pa) ← smartQuery s field "<=" l
      .ok (Option.none, some q, some pa)
  | .moreEq l => do
      let (q, pa) ← smartQuery s field ">=" l
      .ok (Option.none, some q, some pa)
  | .between lo hi => do
      let (low_query, low_params) ← smartQuery s field ">=" lo
      let (hi_query, hi_params) ← smartQuery s field "<=" hi
      .ok (Option.none, some ("(" ++ low_query ++ " AND " ++ hi_query ++ ")"),
           some (low_params ++ hi_params))
  | .oneOf opts =>
      if opts.isEmpty then .ok (some (.oneOf opts), Option.none, Option.none)
      else do
        let (exprs, params) ← pgOneOfFold s field opts
        .ok (Option.none, some ("(" ++ String.intercalate " OR " exprs ++ ")"), some params)

/-- The field loop of `_PostgreSQLSimplifier.on_where`: each field
predicate must compile fully (the source asserts `pred is None and clause
is not None and fparams is not None`). -/
def pgWhereFold (s : PgSimplifier) :
    List (String × FieldPredicate) → Except PyErr (List String × List String)
  | [] => .ok ([], [])
  | (name, fp) :: fs => do
      let (pred, clause, fparams) ← pgVisitField s name fp
      match pred, clause, fparams with
      | Option.none, some c, some pa => do
          let (es, ps) ← pgWhereFold s fs
          .ok (c :: es, pa ++ ps)
      | _, _, _ => .error (.runtimeError "AssertionError")

/-- The collection loop shared by `PredicateSQLSimplifier.on_or` and
`.on_and` (`flurry.core/utils.py` lines 143-149 and 169-175): residuals,
clauses and parameter lists of the children are gathered independently. -/
def pgCollect :
    List (Option Predicate × Option String × Option (List String)) →
      (List Predicate × List String × List String)
  | [] => ([], [], [])
  | (pr, c, pa) :: rest =>
      let (ps, cs, pas) := pgCollect rest
      ((match pr with | some p => p :: ps | Option.none => ps),
       (match c with | some x => x :: cs | Option.none => cs),
       (match pa with | some x => x ++ pas | Option.none => pas))

mutual

/-- `visit_predicate` over the `_PostgreSQLSimplifier`: `on_is` and
`on_where` from `postgres.py`, `on_or`/`on_and` inherited from
`PredicateSQLSimplifier`.  Empty `Is`/`And`/`Or`/`Where` are returned
whole as residual with no clause. -/
def pgVisit (s : PgSimplifier) :
    Predicate → Except PyErr (Option Predicate × Option String × Option (List String))
  | .is types =>
      if types.isEmpty then .ok (some (.is types), Option.none, Option.none)
      else
        .ok (Option.none,
          some (s.type_field ++ " IN ("
                ++ String.intercalate ", " (types.map (fun _ => "%s")) ++ ")"),
          some types)
  | .or alts =>
      if alts.isEmpty then .ok (some (.or alts), Option.none, Option.none)
      else do
        let items ← pgVisitList s alts
        let (preds, clauses, params) := pgCollect items
        .ok ((if preds.isEmpty then Option.none else some (.or preds)),
             (if clauses.isEmpty then Option.none
              else some ("(" ++ String.intercalate " OR " clauses ++ ")")),
             (if params.isEmpty then Option.none else some params))
  | .and preds =>
      if preds.isEmpty then .ok (some (.and preds), Option.none, Option.none)
      else do
        let items ← pgVisitList s preds
        let (rpreds, clauses, params) := pgCollect items
        .ok ((if rpreds.isEmpty then Option.none else some (.and rpreds)),
             (if clauses.isEmpty then Option.none
              else some ("(" ++ String.intercalate " AND " clauses ++ ")")),
             (if params.isEmpty then Option.none else some params))
  | .whereP fields =>
      if fields.isEmpty then .ok (some (.whereP fields), Option.none, Option.none)
      else do
        let (exprs, params) ← pgWhereFold s fields
        .ok (Option.none, some ("(" ++ String.intercalate " AND " exprs ++ ")"), some params)

def pgVisitList (s : PgSimplifier) :
    List Predicate →
      Except PyErr (List (Option Predicate × Option String × Option (List String)))
  | [] => .ok []
  | p :: ps => do
      let r ← pgVisit s p
      let rs ← pgVisitList s ps
      .ok (r :: rs)

end

/-- The collection loop of `SqliteStorage.__simplify` for `Or`/`And`
children (`money/framework/storage.py` lines 98-131): unlike the flurry
version, a child's parameters are appended only when its clause is
present. -/
def sqliteCollect :
    List (Option Predicate × Option String × Option (List String)) →
      (List Predicate × List String × List String)
  | [] => ([], [], [])
  | (simp, whereC, params) :: rest =>
      let (ps, cs, pas) := sqliteCollect rest
      ((match simp with | some p => p :: ps | Option.none => ps),
       (match whereC with | some c => c :: cs | Option.none => cs),
       (match whereC, params with
        | some _, some pa => pa ++ pas
        | _, _ => pas))

mutual

/-- `SqliteStorage.__simplify` (`money/framework/storage.py` lines
88-132), with `field_mapping = {Is: type_field}`.  NOTE: the `And` branch
of the source rebuilds the residual with `P.Or(*new_preds)` (line 128);
this is embedded faithfully. -/
def sqliteSimplify (tf : String) :
    Predicate → (Option Predicate × Option String × Option (List String))
  | .is types =>
      (Option.none,
       some (tf ++ " IN (" ++ String.intercalate "," (types.map (fun _ => "?")) ++ ")"),
       some types)
  | .or alts =>
      let (new_alts, clauses, params) := sqliteCollect (sqliteSimplifyList tf alts)
      ((if new_alts.isEmpty then Option.none else some (.or new_alts)),
       (if clauses.isEmpty then Option.none
        else some ("(" ++ String.intercalate " OR " clauses ++ ")")),
       (if params.isEmpty then Option.none else some params))
  | .and preds =>
      let (new_preds, clauses, params) := sqliteCollect (sqliteSimplifyList tf preds)
      ((if new_preds.isEmpty then Option.none else some (.or new_preds)),
       (if clauses.isEmpty then Option.none
        else some ("(" ++ String.intercalate " AND " clauses ++ ")")),
       (if params.isEmpty then Option.none else some params))
  | .whereP fields => (some (.whereP fields), Option.none, Option.none)

def sqliteSimplifyList (tf : String) :
    List Predicate → List (Option Predicate × Option String × Option (List String))
  | [] => []
  | p :: ps => sqliteSimplify tf p :: sqliteSimplifyList tf ps

end

/-! ## The asynchronous reader-writer lock

State machine for `RWLock` (`src/flurry.util/flurry/util/rwlock.py`).
The system is single-threaded asyncio: each lock method body runs
atomically between awaits, so every method (or, for `upgrade` /
`downgrade`, the release-then-reacquire pair the source performs without
an intervening suspension) is one transition.  Tasks are identified by
naturals.  `writers`/`readers` model the two deques of pending futures;
`activeReaders`/`activeWriters` are bookkeeping — the tasks whose
acquisition has returned (or whose pending future has been resolved by
`set_result`, which grants the lock) and that have not yet released.
Cancellation is not modelled; no claim quantifies over it. -/
structure RWLock where
  reading : Int
  writing : Int
  writers : List Nat
  readers : List Nat
  activeReaders : List Nat
  activeWriters : List Nat
deriving DecidableEq, Repr

def RWLock.init : RWLock := ⟨0, 0, [], [], [], []⟩

/-- `_can_read` for task `t`: fast path when no writer is active or
queued (`self._writing` falsy), otherwise enqueue on the reader deque.
The returned flag tells whether the lock was acquired immediately. -/
def canRead (t : Nat) (s : RWLock) : RWLock × Bool :=
  if s.writing == 0 then
    ({ s with reading := s.reading + 1, activeReaders := t :: s.activeReaders }, true)
  else
    ({ s with readers := s.readers ++ [t] }, false)

/-- `_can_write` for task `t`: `self._writing += 1`, then return at once
when no reader is active (`self._reading` falsy) — the source does not
test for another active writer — otherwise enqueue on the writer deque. -/
def canWrite (t : Nat) (s : RWLock) : RWLock × Bool :=
  if s.reading == 0 then
    ({ s with writing := s.writing + 1, activeWriters := t :: s.activeWriters }, true)
  else
    ({ s with writing := s.writing + 1, writers := s.writers ++ [t] }, false)

/-- `_done_reading` for task `t`: decrement the reader count; when it was
the last reader, wake (grant the lock to) the first queued writer. -/
def doneReading (t : Nat) (s : RWLock) : RWLock :=
  if 0 < s.reading - 1 then
    { s with reading := s.reading - 1, activeReaders := s.activeReaders.erase t }
  else
    match s.writers with
    | w :: rest =>
        { s with reading := s.reading - 1, activeReaders := s.activeReaders.erase t,
                 writers := rest, activeWriters := w :: s.activeWriters }
    | [] =>
        { s with reading := s.reading - 1, activeReaders := s.activeReaders.erase t }

/-- `_done_writing` for task `t`: decrement the writer count; wake (grant
the lock to) the first queued writer if any, otherwise wake every queued
reader — each woken reader resumes inside `_can_read` and increments
`self._reading`. -/
def doneWriting (t : Nat) (s : RWLock) : RWLock :=
  match s.writers with
  | w :: rest =>
      { s with writing := s.writing - 1, activeWriters := w :: s.activeWriters.erase t,
               writers := rest }
  | [] =>
      { s with writing := s.writing - 1, activeWriters := s.activeWriters.erase t,
               readers := [], activeReaders := s.readers ++ s.activeReaders,
               reading := s.reading + s.readers.length }

/-- `RWLockHandle.upgrade`: the source creates the `_can_write` coroutine,
releases the read hold (`_done_reading`), and only then awaits the
coroutine, whose body runs at that point. -/
def upgrade (t : Nat) (s : RWLock) : RWLock × Bool :=
  canWrite t (doneReading t s)

/-- `RWLockHandle.downgrade`: release the write hold (`_done_writing`),
then run the `_can_read` body. -/
def downgrade (t : Nat) (s : RWLock) : RWLock × Bool :=
  canRead t (doneWriting t s)

/-- A task that is nowhere in the lock's bookkeeping. -/
def RWLock.freshTask (s : RWLock) (t : Nat) : Prop :=
  t ∉ s.readers ∧ t ∉ s.writers ∧ t ∉ s.activeReaders ∧ t ∉ s.activeWriters

/-- One transition of the lock: a fresh task requests a read or write
lock (acquiring immediately or enqueueing), a holder releases, or a
holder upgrades/downgrades. -/
inductive LockStep : RWLock → RWLock → Prop
  | requestRead (t : Nat) (s : RWLock) (h : s.freshTask t) : LockStep s (canRead t s).1
  | requestWrite (t : Nat) (s : RWLock) (h : s.freshTask t) : LockStep s (canWrite t s).1
  | releaseRead (t : Nat) (s : RWLock) (h : t ∈ s.activeReaders) :
      LockStep s (doneReading t s)
  | releaseWrite (t : Nat) (s : RWLock) (h : t ∈ s.activeWriters) :
      LockStep s (doneWriting t s)
  | upgradeStep (t : Nat) (s : RWLock) (h : t ∈ s.activeReaders) :
      LockStep s (upgrade t s).1
  | downgradeStep (t : Nat) (s : RWLock) (h : t ∈ s.activeWriters) :
      LockStep s (downgrade t s).1

/-- States reachable from the initial (idle) lock. -/
def LockReachable (s : RWLock) : Prop :=
  Relation.ReflTransGen LockStep RWLock.init s

/-! ## Aggregate reconstruction

`src/flurry.core/flurry/core/aggregate.py`.  An event carries its exact
class name (`type(event).__name__`) and the names of the class and its
ancestors (for `isinstance`).  An aggregate definition over an entity
state `σ` carries the aggregate name, the creation event class
(`__agg_create__`) and the handler table (`__agg_events__`, keyed by
exact event class). -/
structure Event where
  tag : String
  classes : List String
deriving DecidableEq, Repr

structure AggregateDef (σ : Type) where
  name : String
  agg_create : String
  agg_events : String → Option (σ → Event → σ)

inductive AggErr where
  | emptyEvents (aggName : String)
  | invalidCreation
  | noHandler (aggName evtName : String)
deriving DecidableEq, Repr

/-- `AggregateBase.apply_event`: look up the handler registered for the
event's exact runtime type; a missing handler raises `ValueError` (never
silently ignored). -/
def apply_event (d : AggregateDef σ) (s : σ) (e : Event) : Except AggErr σ :=
  match d.agg_events e.tag with
  | some h => .ok (h s e)
  | Option.none => .error (.noHandler d.name e.tag)

/-- `AggregateBase.from_events`: `ValueError` on an empty list;
`ValueError` when the first event is not an instance of the creation
event class; otherwise fold every event in list order via `apply_event`
onto the freshly allocated, field-uninitialized entity
(`cls.__new__(cls)`, modelled by the `fresh` parameter). -/
def from_events (d : AggregateDef σ) (fresh : σ) (events : List Event) :
    Except AggErr σ :=
  match events with
  | [] => .error (.emptyEvents d.name)
  | e :: _ =>
      if e.classes.contains d.agg_create then events.foldlM (apply_event d) fresh
      else .error .invalidCreation

/-! ## The in-memory storage backend

`src/money/framework/storage/memory.py`.  Events are an append-only
list; snapshots are a dict keyed by `(aggregate type, id value)`,
modelled as an insertion-ordered association list with last-write-wins
upsert.  Records double as stored events and snapshots. -/
structure MemoryStorage where
  events : List Record
  snapshots : List ((String × PyVal) × Record)
deriving Repr

def MemoryStorage.empty : MemoryStorage := ⟨[], []⟩

/-- `MemoryStorage.save_events`: append in the given order; the snapshot
dict is not touched. -/
def MemoryStorage.save_events (st : MemoryStorage) (events : List Record) :
    MemoryStorage :=
  { st with events := st.events ++ events }

/-- Python dict upsert: an existing key keeps its position and gets the
new value; a new key is appended. -/
def dictUpsert (k : String × PyVal) (v : Record) :
    List ((String × PyVal) × Record) → List ((String × PyVal) × Record)
  | [] => [(k, v)]
  | (k2, v2) :: rest =>
      if k2 = k then (k2, v) :: rest else (k2, v2) :: dictUpsert k v rest

/-- `MemoryStorage.save_snapshots`: upsert each snapshot under
`(type(snap), getattr(snap, snap_typ.__agg_id__))`.  The record's
concrete class is the head of its class list; `agg_id_attr` maps an
aggregate class to its `__agg_id__` attribute name.  (A snapshot missing
its id attribute would raise `AttributeError` in Python; snapshots
produced by the framework always carry it, and no claim exercises that
path.) -/
def MemoryStorage.save_snapshots (agg_id_attr : String → String)
    (st : MemoryStorage) (snaps : List Record) : MemoryStorage :=
  snaps.foldl
    (fun acc snap =>
      let typ := snap.classes.headD ""
      let sid := (snap.attrs.lookup (agg_id_attr typ)).getD .vnone
      { acc with snapshots := dictUpsert (typ, sid) snap acc.snapshots })
    st

/-- `MemoryStorage.load_events`: the stored events, in insertion order,
filtered by direct predicate evaluation when one is given. -/
def MemoryStorage.load_events (st : MemoryStorage) (query : Option Predicate) :
    Except PyErr (List Record) :=
  match query with
  | Option.none => .ok st.events
  | some q => st.events.filterM (fun e => q.call e)

/-- `MemoryStorage.load_snapshots`: the snapshot dict's values, filtered
by direct predicate evaluation when one is given. -/
def MemoryStorage.load_snapshots (st : MemoryStorage) (query : Option Predicate) :
    Except PyErr (List Record) :=
  match query with
  | Option.none => .ok (st.snapshots.map (fun kv => kv.2))
  | some q => (st.snapshots.map (fun kv => kv.2)).filterM (fun e => q.call e)

/-- The value kinds `_smart_query` accepts as JSON scalars
(`isinstance(val, (str, int, float, bool))`). -/
def PyVal.isJsonScalar : PyVal → Bool
  | .vbool _ | .vint _ | .vstr _ => true
  | _ => false

/-- Modelled from the spec (and PostgreSQL's documented behavior, which
is not part of this repository): the meaning of the produced clause
`coalesce(data->key <> literal, true)` over the optionally-present stored
value — comparing a missing key's SQL NULL yields NULL, and
`coalesce(NULL, true)` is true; a present jsonb value compares by exact
jsonb equality. -/
def coalesceNotEqSem (stored : Option PyVal) (lit : PyVal) : Bool :=
  match stored with
  | Option.none => true
  | some v => !(v == lit)

/-! ## Theorems -/

theorem pyEq_vnone_left (x : PyVal) (hx : x ≠ .vnone) : pyEq .vnone x = false := by
  cases x with
  | vnone => exact absurd rfl hx
  | vbool b => rfl
  | vint n => rfl
  | vstr s => rfl
  | vtime t => rfl

/-- Claim C1: the round-trip `FieldPredicate.from_dict(fp.to_dict()) == fp`
fails for `NotEq`: the source's `"not_eq"` branch returns `Eq`, so
deserializing `NotEq(1)`'s map form yields `Eq(1)`, which does not
compare equal to `NotEq(1)`; the failure propagates to whole predicates
such as `Where(f=NotEq(1))`. -/
theorem C1_from_dict_not_eq_yields_eq :
    FieldPredicate.from_dict ((FieldPredicate.notEq (.vint 1)).to_dict)
        = .ok (.eq (.vint 1)) ∧
    FieldPredicate.pyEqFP (.eq (.vint 1)) (.notEq (.vint 1)) = false ∧
    Predicate.from_dict ((Predicate.whereP [("f", .notEq (.vint 1))]).to_dict)
        = .ok (.whereP [("f", .eq (.vint 1))]) ∧
    Predicate.pyEqPred (.whereP [("f", .eq (.vint 1))])
        (.whereP [("f", .notEq (.vint 1))]) = false :=
  ⟨rfl, rfl, rfl, rfl⟩

/-- Claim C2 (counterexample): with `x = null`, a record with no field
`f` gives `evaluate(Where(f=NotEq(null)), r) = false` and
`evaluate(Where(f=Eq(null)), r) = true` — the opposite of the claimed
results, because the absent field is read as `null` and `null != null`
is false. -/
theorem C2_counterexample_null :
    Predicate.call (.whereP [("f", .notEq .vnone)]) ⟨["Rec"], [], []⟩ = .ok false ∧
    Predicate.call (.whereP [("f", .eq .vnone)]) ⟨["Rec"], [], []⟩ = .ok true :=
  ⟨rfl, rfl⟩

/-- Claim C2 (amended): for every record with no field `f` and every
value `x` other than `null`, the absent field is read as `null`,
`Where(f=NotEq(x))` evaluates to true and `Where(f=Eq(x))` evaluates to
false. -/
theorem C2_missing_field_read_as_null (r : Record) (f : String) (x : PyVal)
    (hmiss : r.attrs.lookup ((r.schemaAttr.lookup f).getD f) = Option.none)
    (hx : x ≠ .vnone) :
    r.getField f = .vnone ∧
    Predicate.call (.whereP [(f, .notEq x)]) r = .ok true ∧
    Predicate.call (.whereP [(f, .eq x)]) r = .ok false := by
  have hget : r.getField f = .vnone := by
    simp [Record.getField, hmiss]
  refine ⟨hget, ?_, ?_⟩ <;>
    simp only [Predicate.call, Predicate.callFields, FieldPredicate.call, hget,
      pyEq_vnone_left x hx] <;> rfl

theorem C2_missing_field_read_as_null_witness :
    (([] : List (String × PyVal)).lookup
        (((([] : List (String × String))).lookup "f").getD "f") = Option.none) ∧
    (PyVal.vint 5 ≠ .vnone) ∧
    (Record.getField ⟨["Rec"], [], []⟩ "f" = .vnone ∧
     Predicate.call (.whereP [("f", .notEq (.vint 5))]) ⟨["Rec"], [], []⟩ = .ok true ∧
     Predicate.call (.whereP [("f", .eq (.vint 5))]) ⟨["Rec"], [], []⟩ = .ok false) :=
  ⟨rfl, by decide,
   C2_missing_field_read_as_null ⟨["Rec"], [], []⟩ "f" (.vint 5) rfl (by decide)⟩

/-- Claim C3 (counterexample): `Is()` with an empty type tuple evaluates
`isinstance(item, ())`, which is false for every item, so an empty `Is`
matches nothing — the claim asserts it matches everything. -/
theorem C3_counterexample_empty_is :
    Predicate.call (.is []) ⟨["SomeRecord"], [], [("x", .vint 1)]⟩ = .ok false ∧
    Predicate.call (.is []) ⟨["SomeRecord"], [], [("x", .vint 1)]⟩ ≠ .ok true :=
  ⟨rfl, fun h => Bool.noConfusion (Except.ok.inj h)⟩

/-- Claim C3 (amended): for every record `r`, `evaluate(Is(), r)` is
false — an `Is` with an empty type set matches no record rather than
every record. -/
theorem C3_empty_is_matches_nothing (r : Record) :
    Predicate.call (.is []) r = .ok false := rfl

/-- Claim C4: `SqliteStorage.__simplify` folds the uncompiled remainders
of an `And` back with `Or` (storage.py line 128): for
`And(Where(a=Eq(1)), Where(b=Eq(2)))` — whose children the sqlite field
mapping cannot compile at all — the residual is
`Or(Where(a=Eq(1)), Where(b=Eq(2)))`, and on the record
`{a: 1, b: 3}` the residual evaluates to true while the original
predicate evaluates to false, so re-evaluating the residual does not
cover the uncompiled gap. -/
theorem C4_sqlite_and_residual_folded_with_or :
    sqliteSimplify "event_type"
        (.and [.whereP [("a", .eq (.vint 1))], .whereP [("b", .eq (.vint 2))]])
      = (some (.or [.whereP [("a", .eq (.vint 1))], .whereP [("b", .eq (.vint 2))]]),
         Option.none, Option.none) ∧
    Predicate.call (.and [.whereP [("a", .eq (.vint 1))], .whereP [("b", .eq (.vint 2))]])
        ⟨["E"], [], [("a", .vint 1), ("b", .vint 3)]⟩ = .ok false ∧
    Predicate.call (.or [.whereP [("a", .eq (.vint 1))], .whereP [("b", .eq (.vint 2))]])
        ⟨["E"], [], [("a", .vint 1), ("b", .vint 3)]⟩ = .ok true :=
  ⟨rfl, rfl, rfl⟩

/-- Claim C5: for every string/number/bool literal `x`, the PostgreSQL
simplifier compiles `NotEq(x)` on field `f` fully — residual `None` —
to the clause `coalesce(data_field->f <> literal, true)` with parameters
`[f, dumps(x)]`; under the SQL semantics of that clause a missing key
satisfies the negation and a present value differing from `x` satisfies
it as well. -/
theorem C5_not_eq_compiles_to_coalesce (tf df f : String) (tc : Option String)
    (x : PyVal) (hx : x.isJsonScalar = true) :
    pgVisitField (mkPgSimplifier tf df tc) f (.notEq x)
      = .ok (Option.none,
             some ("coalesce(" ++ df ++ "->%s " ++ "<>" ++ " %s::jsonb, true)"),
             some [f, JSONdumps x]) ∧
    coalesceNotEqSem Option.none x = true ∧
    (∀ v : PyVal, (v == x) = false → coalesceNotEqSem (some v) x = true) := by
  refine ⟨?_, rfl, ?_⟩
  · cases x with
    | vnone => simp [PyVal.isJsonScalar] at hx
    | vtime t => simp [PyVal.isJsonScalar] at hx
    | vbool b => rfl
    | vint n => rfl
    | vstr s => rfl
  · intro v hv
    simp [coalesceNotEqSem, hv]

theorem C5_not_eq_compiles_to_coalesce_witness :
    ((PyVal.vint 21).isJsonScalar = true) ∧
    (pgVisitField (mkPgSimplifier "event_type" "event_data" Option.none) "age"
        (.notEq (.vint 21))
      = .ok (Option.none,
             some "coalesce(event_data->%s <> %s::jsonb, true)",
             some ["age", "21"]) ∧
     coalesceNotEqSem Option.none (.vint 21) = true ∧
     (∀ v : PyVal, (v == PyVal.vint 21) = false →
        coalesceNotEqSem (some v) (.vint 21) = true)) :=
  ⟨rfl, C5_not_eq_compiles_to_coalesce "event_type" "event_data" "age"
    Option.none (.vint 21) rfl⟩

/-- Claim C6 (counterexample): with no timestamp conversion configured
(`timestamp_convert = None`), the simplifier compiles
`Where(a=Eq(datetime))` fully — the clause uses the built-in default
`to_timestamp` pattern and the residual is `None` — instead of leaving
the timestamp comparison uncompiled as residual. -/
theorem C6_counterexample_timestamp_compiled :
    pgVisit (mkPgSimplifier "event_type" "event_data" Option.none)
        (.whereP [("a", .eq (.vtime 0))])
      = .ok (Option.none,
             some "((event_data ? %s AND to_timestamp(event_data->>%s, \x27YYYY-MM-DD\"T\"HH24:MI:SSTZH:TZM\x27) = %s::timestamp))",
             some ["a", "a", "datetime(0)"]) ∧
    (pgVisit (mkPgSimplifier "event_type" "event_data" Option.none)
        (.whereP [("a", .eq (.vtime 0))])).map (fun r => r.1.isNone)
      = .ok true :=
  ⟨rfl, rfl⟩

theorem pgOneOfFold_timestamps (f : String) (xs : List Int) :
    pgOneOfFold (mkPgSimplifier "event_type" "event_data" Option.none) f
        (xs.map PyVal.vtime)
      = .ok (xs.map (fun _ =>
               "(event_data ? %s AND to_timestamp(event_data->>%s, \x27YYYY-MM-DD\"T\"HH24:MI:SSTZH:TZM\x27) = %s::timestamp)"),
             xs.flatMap (fun x => [f, f, isoformat x])) := by
  induction xs with
  | nil => rfl
  | cons x xs ih =>
      have h1 : pgOneOfFold (mkPgSimplifier "event_type" "event_data" Option.none) f
            ((x :: xs).map PyVal.vtime)
          = (pgOneOfFold (mkPgSimplifier "event_type" "event_data" Option.none) f
                (xs.map PyVal.vtime) >>= fun r =>
              Except.ok
                ("(event_data ? %s AND to_timestamp(event_data->>%s, \x27YYYY-MM-DD\"T\"HH24:MI:SSTZH:TZM\x27) = %s::timestamp)"
                   :: r.1,
                 [f, f, isoformat x] ++ r.2)) := rfl
      rw [h1, ih]
      rfl

/-- Claim C6 (amended): when no conversion function is configured, the
constructor substitutes the built-in default `to_timestamp(...)` pattern,
and every field comparison against a timestamp literal — `Eq`, `NotEq`,
`Less`, `More`, `LessEq`, `MoreEq`, `Between`, and each option of a
nonempty `OneOf` — still compiles fully (residual `None`) to a clause
built with that pattern, for every field name; timestamp comparisons are
neither left as residual nor a compilation failure. -/
theorem C6_amended_default_to_timestamp (f : String) (t u : Int) (ts : List Int) :
    (mkPgSimplifier "event_type" "event_data" Option.none).timestamp_convert
        = default_timestamp_convert ∧
    pgVisitField (mkPgSimplifier "event_type" "event_data" Option.none) f
        (.eq (.vtime t))
      = .ok (Option.none,
             some "(event_data ? %s AND to_timestamp(event_data->>%s, \x27YYYY-MM-DD\"T\"HH24:MI:SSTZH:TZM\x27) = %s::timestamp)",
             some [f, f, isoformat t]) ∧
    pgVisitField (mkPgSimplifier "event_type" "event_data" Option.none) f
        (.notEq (.vtime t))
      = .ok (Option.none,
             some "coalesce(to_timestamp(event_data->>%s, \x27YYYY-MM-DD\"T\"HH24:MI:SSTZH:TZM\x27) <> %s::timestamp, true)",
             some [f, isoformat t]) ∧
    pgVisitField (mkPgSimplifier "event_type" "event_data" Option.none) f
        (.less (.vtime t))
      = .ok (Option.none,
             some "(event_data ? %s AND to_timestamp(event_data->>%s, \x27YYYY-MM-DD\"T\"HH24:MI:SSTZH:TZM\x27) < %s::timestamp)",
             some [f, f, isoformat t]) ∧
    pgVisitField (mkPgSimplifier "event_type" "event_data" Option.none) f
        (.more (.vtime t))
      = .ok (Option.none,
             some "(event_data ? %s AND to_timestamp(event_data->>%s, \x27YYYY-MM-DD\"T\"HH24:MI:SSTZH:TZM\x27) > %s::timestamp)",
             some [f, f, isoformat t]) ∧
    pgVisitField (mkPgSimplifier "event_type" "event_data" Option.none) f
        (.lessEq (.vtime t))
      = .ok (Option.none,
             some "(event_data ? %s AND to_timestamp(event_data->>%s, \x27YYYY-MM-DD\"T\"HH24:MI:SSTZH:TZM\x27) <= %s::timestamp)",
             some [f, f, isoformat t]) ∧
    pgVisitField (mkPgSimplifier "event_type" "event_data" Option.none) f
        (.moreEq (.vtime t))
      = .ok (Option.none,
             some "(event_data ? %s AND to_timestamp(event_data->>%s, \x27YYYY-MM-DD\"T\"HH24:MI:SSTZH:TZM\x27) >= %s::timestamp)",
             some [f, f, isoformat t]) ∧
    pgVisitField (mkPgSimplifier "event_type" "event_data" Option.none) f
        (.between (.vtime t) (.vtime u))
      = .ok (Option.none,
             some "((event_data ? %s AND to_timestamp(event_data->>%s, \x27YYYY-MM-DD\"T\"HH24:MI:SSTZH:TZM\x27) >= %s::timestamp) AND (event_data ? %s AND to_timestamp(event_data->>%s, \x27YYYY-MM-DD\"T\"HH24:MI:SSTZH:TZM\x27) <= %s::timestamp))",
             some [f, f, isoformat t, f, f, isoformat u]) ∧
    pgVisitField (mkPgSimplifier "event_type" "event_data" Option.none) f
        (.oneOf ((t :: ts).map PyVal.vtime))
      = .ok (Option.none,
             some ("(" ++ String.intercalate " OR "
                     ((t :: ts).map (fun _ =>
                       "(event_data ? %s AND to_timestamp(event_data->>%s, \x27YYYY-MM-DD\"T\"HH24:MI:SSTZH:TZM\x27) = %s::timestamp)"))
                   ++ ")"),
             some ((t :: ts).flatMap (fun x => [f, f, isoformat x]))) := by
  refine ⟨rfl, rfl, rfl, rfl, rfl, rfl, rfl, rfl, ?_⟩
  have h1 : pgVisitField (mkPgSimplifier "event_type" "event_data" Option.none) f
        (.oneOf ((t :: ts).map PyVal.vtime))
      = (pgOneOfFold (mkPgSimplifier "event_type" "event_data" Option.none) f
            ((t :: ts).map PyVal.vtime) >>= fun r =>
          Except.ok (Option.none,
            some ("(" ++ String.intercalate " OR " r.1 ++ ")"), some r.2)) := rfl
  rw [h1, pgOneOfFold_timestamps f (t :: ts)]
  rfl

/-- Claim C7: a state in which two distinct tasks simultaneously hold the
write lock is reachable from the idle lock — task 0 and task 1 each call
`_can_write` with no readers active, and both return immediately because
the source only tests `self._reading` — so "at most one write lock is
held at a time" fails on the code. -/
theorem C7_two_concurrent_write_locks_reachable :
    ∃ s : RWLock, LockReachable s ∧ s.activeWriters = [1, 0] := by
  refine ⟨(canWrite 1 (canWrite 0 RWLock.init).1).1, ?_, rfl⟩
  exact Relation.ReflTransGen.tail
    (Relation.ReflTransGen.single
      (LockStep.requestWrite 0 RWLock.init
        (by refine ⟨?_, ?_, ?_, ?_⟩ <;> simp [RWLock.init])))
    (LockStep.requestWrite 1 (canWrite 0 RWLock.init).1
      (by refine ⟨?_, ?_, ?_, ?_⟩ <;> simp [RWLock.init, canWrite]))

/-- Claim C8: when a held write lock is released while a read request and
a write request are both pending, `_done_writing` wakes exactly the first
queued writer — it is granted the lock while every pending reader stays
queued — and it wakes the blocked readers (all of them) only when no
writer is queued. -/
theorem C8_release_wakes_one_writer_before_readers (s : RWLock) (t : Nat)
    (_hheld : t ∈ s.activeWriters) (_hreadPending : s.readers ≠ []) :
    (∀ w rest, s.writers = w :: rest →
        (doneWriting t s).activeWriters = w :: s.activeWriters.erase t ∧
        (doneWriting t s).writers = rest ∧
        (doneWriting t s).readers = s.readers ∧
        (doneWriting t s).activeReaders = s.activeReaders) ∧
    (s.writers = [] →
        (doneWriting t s).readers = [] ∧
        (doneWriting t s).activeReaders = s.readers ++ s.activeReaders) := by
  constructor
  · intro w rest hw
    simp [doneWriting, hw]
  · intro hw
    simp [doneWriting, hw]

theorem C8_release_wakes_one_writer_before_readers_witness :
    (0 ∈ (RWLock.mk 0 2 [2] [1] [] [0]).activeWriters) ∧
    ((RWLock.mk 0 2 [2] [1] [] [0]).readers ≠ []) ∧
    (doneWriting 0 (RWLock.mk 0 2 [2] [1] [] [0])).activeWriters = [2] ∧
    (doneWriting 0 (RWLock.mk 0 2 [2] [1] [] [0])).writers = [] ∧
    (doneWriting 0 (RWLock.mk 0 2 [2] [1] [] [0])).readers = [1] := by
  have h := C8_release_wakes_one_writer_before_readers
    (RWLock.mk 0 2 [2] [1] [] [0]) 0 (by simp) (by simp)
  have h2 := h.1 2 [] rfl
  exact ⟨by simp, by simp, by rw [h2.1]; rfl, h2.2.1, h2.2.2.1⟩

/-- A two-handler aggregate over an integer entity state, used to
instantiate the reconstruction theorem. -/
def todoAggregate : AggregateDef Int :=
  { name := "TodoListAggregate",
    agg_create := "TodoCreatedEvent",
    agg_events := fun tag =>
      if tag == "TodoCreatedEvent" then some (fun s _ => s + 1)
      else if tag == "TodoCompletedEvent" then some (fun s _ => s * 10)
      else Option.none }

/-- Claim C9: `from_events` fails on the empty list, fails when the first
event is not an instance of the declared creation event class, and
otherwise folds every event strictly in list order via `apply_event` onto
the freshly allocated entity; `apply_event` on an event type with no
registered handler is an error, never silently ignored. -/
theorem C9_from_events_reconstruction {σ : Type} (d : AggregateDef σ) (fresh : σ) :
    from_events d fresh [] = .error (.emptyEvents d.name) ∧
    (∀ (e : Event) (es : List Event), e.classes.contains d.agg_create = false →
        from_events d fresh (e :: es) = .error .invalidCreation) ∧
    (∀ (e : Event) (es : List Event), e.classes.contains d.agg_create = true →
        from_events d fresh (e :: es)
          = apply_event d fresh e >>= fun s1 => es.foldlM (apply_event d) s1) ∧
    (∀ (s : σ) (e : Event), d.agg_events e.tag = Option.none →
        apply_event d s e = .error (.noHandler d.name e.tag)) ∧
    (∀ (s : σ) (e : Event) (h : σ → Event → σ), d.agg_events e.tag = some h →
        apply_event d s e = .ok (h s e)) := by
  refine ⟨rfl, ?_, ?_, ?_, ?_⟩
  · intro e es hc
    have h1 : from_events d fresh (e :: es)
        = if e.classes.contains d.agg_create = true
          then (e :: es).foldlM (apply_event d) fresh
          else .error .invalidCreation := rfl
    rw [h1, hc]
    rfl
  · intro e es hc
    have h1 : from_events d fresh (e :: es)
        = if e.classes.contains d.agg_create = true
          then (e :: es).foldlM (apply_event d) fresh
          else .error .invalidCreation := rfl
    rw [h1, hc]
    rfl
  · intro s e hn
    simp [apply_event, hn]
  · intro s e h hh
    simp [apply_event, hh]

theorem C9_from_events_reconstruction_witness :
    from_events todoAggregate 0 [] = .error (.emptyEvents "TodoListAggregate") ∧
    from_events todoAggregate 0 [⟨"OtherEvent", ["OtherEvent"]⟩]
        = .error .invalidCreation ∧
    from_events todoAggregate 0
        [⟨"TodoCreatedEvent", ["TodoCreatedEvent", "EventBase"]⟩,
         ⟨"TodoCompletedEvent", ["TodoCompletedEvent", "EventBase"]⟩] = .ok 10 ∧
    apply_event todoAggregate 0 ⟨"UnknownEvent", ["UnknownEvent"]⟩
        = .error (.noHandler "TodoListAggregate" "UnknownEvent") := by
  have h := C9_from_events_reconstruction todoAggregate 0
  refine ⟨h.1, h.2.1 _ _ rfl, ?_, h.2.2.2.1 0 _ rfl⟩
  rw [h.2.2.1 ⟨"TodoCreatedEvent", ["TodoCreatedEvent", "EventBase"]⟩
    [⟨"TodoCompletedEvent", ["TodoCompletedEvent", "EventBase"]⟩] rfl]
  rfl

/-- Claim C10: `save_events` leaves the snapshot dict untouched, so
`load_snapshots` with any predicate (or none) returns exactly what it
returned before the save — the snapshot cache is refreshed only by the
explicit snapshot-saving mechanism. -/
theorem C10_save_events_preserves_snapshots (st : MemoryStorage)
    (events : List Record) (query : Option Predicate) :
    (st.save_events events).snapshots = st.snapshots ∧
    (st.save_events events).load_snapshots query = st.load_snapshots query := by
  refine ⟨rfl, ?_⟩
  cases query <;> rfl

end Flurry
